import Mathlib

/-!
Verification of the appcenter-rs crash-reporting agent (src/lib.rs,
src/device.rs, src/utils.rs), shallowly embedded in Lean 4.

Modelling conventions:
* `uuid::Uuid` values are modelled as `Nat` identifiers supplied by the
  surrounding nondeterministic world (they are random in the source).
* `chrono::DateTime<Utc>` timestamps are modelled as `Nat`.
* Platform calls (`Utils::get_pid`, `Utils::get_model`, `Utils::get_locale`,
  `Utils::get_os_version`, the `OS_NAME` constant) are nondeterministic
  inputs bundled in environment records.
* serde serialization is modelled as a function into an explicit JSON tree;
  `#[serde(skip_serializing_if = "Option::is_none")]` fields are omitted
  from the object when `none`, other `Option` fields serialize `none` as
  JSON `null` (serde's default behaviour).
* Byte vectors (`Vec<u8>`) are `List Nat` with every element below 256.
-/

/-- JSON values, the target of the serde serialization model. -/
inductive Json where
  | null : Json
  | str (s : String) : Json
  | num (n : Nat) : Json
  | bool (b : Bool) : Json
  | arr (xs : List Json) : Json
  | obj (fields : List (String × Json)) : Json

mutual

/-- Whether a JSON value contains `null` anywhere in its tree. -/
def Json.hasNull : Json → Bool
  | .null => true
  | .str _ => false
  | .num _ => false
  | .bool _ => false
  | .arr xs => Json.hasNullList xs
  | .obj fs => Json.hasNullObj fs

def Json.hasNullList : List Json → Bool
  | [] => false
  | j :: tl => j.hasNull || Json.hasNullList tl

def Json.hasNullObj : List (String × Json) → Bool
  | [] => false
  | (_, j) :: tl => j.hasNull || Json.hasNullObj tl

end

/-- Whether a JSON object has a field with the given key (false on non-objects). -/
def Json.hasKey (k : String) : Json → Bool
  | .obj fs => fs.any (fun p => p.1 == k)
  | _ => false

/-- Serde models `#[serde(skip_serializing_if = "Option::is_none")]`:
the field is present only when the option is `some`. -/
def optField (key : String) : Option Json → List (String × Json)
  | none => []
  | some j => [(key, j)]

/-- Platform-dependent inputs to `Device::current_device`
(`Utils::get_model`, `OS_NAME`, `Utils::get_os_version`, `Utils::get_locale`). -/
structure DeviceEnv where
  model : String
  os_name : String
  os_version : String
  locale : String
deriving Repr, DecidableEq

/-- Structure `Device` from src/device.rs. -/
structure Device where
  model : String
  sdk_name : String
  sdk_version : String
  os_name : String
  os_version : String
  locale : String
  app_version : String
  app_build : String
deriving Repr, DecidableEq

/-- Function `Device::current_device` from src/device.rs. -/
def Device.current_device (env : DeviceEnv) (app_version : String)
    (app_build : Option String) : Device :=
  { model := env.model
    sdk_name := "appcenter.custom"
    sdk_version := "3.2.2"
    os_name := env.os_name
    os_version := env.os_version
    locale := env.locale
    app_version := app_version
    app_build := app_build.getD "" }

/-- serde serialization of `Device` (all fields plain strings, camelCase). -/
def Device.toJson (d : Device) : Json :=
  .obj [("model", .str d.model), ("sdkName", .str d.sdk_name),
        ("sdkVersion", .str d.sdk_version), ("osName", .str d.os_name),
        ("osVersion", .str d.os_version), ("locale", .str d.locale),
        ("appVersion", .str d.app_version), ("appBuild", .str d.app_build)]

/-- Structure `ExceptionFrame` from src/lib.rs. -/
structure ExceptionFrame where
  method_name : Option String
  line_number : Option Nat
  file_name : Option String
  address : Option String
deriving Repr, DecidableEq

/-- serde serialization of `ExceptionFrame`: every field carries
`skip_serializing_if = "Option::is_none"`, so absent fields are omitted. -/
def ExceptionFrame.toJson (f : ExceptionFrame) : Json :=
  .obj (optField "methodName" (f.method_name.map .str) ++
        optField "lineNumber" (f.line_number.map .num) ++
        optField "fileName" (f.file_name.map .str) ++
        optField "address" (f.address.map .str))

/-- One symbol of a backtrace frame, as the `backtrace` crate exposes it:
`name` models `symbol.name().map(format)`, `lineno` models `symbol.lineno()`,
`filename` models `symbol.filename().and_then(to_str).map(to_string)`. -/
structure BacktraceSymbol where
  name : Option String
  lineno : Option Nat
  filename : Option String
deriving Repr, DecidableEq

/-- One frame of a captured backtrace: a list of resolved symbols. -/
structure BacktraceFrame where
  symbols : List BacktraceSymbol
deriving Repr, DecidableEq

/-- Function `ExceptionFrame::collect_backtrace` from src/lib.rs, with the
nondeterministic `Backtrace::new()` result passed in as `bt`. For every
symbol of every frame an `ExceptionFrame` is pushed, with `address`
always `None`. -/
def ExceptionFrame.collect_backtrace (bt : List BacktraceFrame) : List ExceptionFrame :=
  bt.flatMap fun frame =>
    frame.symbols.map fun symbol =>
      { method_name := symbol.name
        line_number := symbol.lineno
        file_name := symbol.filename
        address := none }

/-- A panic location (`std::panic::Location`): file and line. -/
structure PanicLocation where
  file : String
  line : Nat
deriving Repr, DecidableEq

/-- Panic information (`std::panic::PanicInfo`) as the hook observes it: `payload_str` models
`payload().downcast_ref::<&str>()` (some iff the payload is a `&str`),
`location` models `location()`. -/
structure PanicInfo where
  payload_str : Option String
  location : Option PanicLocation
deriving Repr, DecidableEq

/-- Structure `AppCenterException` from src/lib.rs. -/
structure AppCenterException where
  «type» : String
  message : String
  frames : List ExceptionFrame
deriving Repr, DecidableEq

/-- Function `AppCenterException::new` from src/lib.rs: the message starts from the
`&str` payload when the downcast succeeds (empty otherwise) and appends
" at file:line" when the location is known; type tag is "panic"; frames
come from `collect_backtrace`. -/
def AppCenterException.new (panic_info : PanicInfo) (bt : List BacktraceFrame) :
    AppCenterException :=
  let m0 := match panic_info.payload_str with
    | some payload => payload
    | none => ""
  let message := match panic_info.location with
    | some location => m0 ++ " at " ++ location.file ++ ":" ++ toString location.line
    | none => m0
  { «type» := "panic", message := message,
    frames := ExceptionFrame.collect_backtrace bt }

/-- serde serialization of `AppCenterException` (camelCase). -/
def AppCenterException.toJson (e : AppCenterException) : Json :=
  .obj [("type", .str e.«type»), ("message", .str e.message),
        ("frames", .arr (e.frames.map ExceptionFrame.toJson))]

/-- The standard base64 alphabet, as used by `base64::encode` in src/lib.rs
(the crate's STANDARD engine: this alphabet plus trailing padding). -/
def b64Alphabet : List Char :=
  "ABCDEFGHIJKLMNOPQRSTUVWXYZabcdefghijklmnopqrstuvwxyz0123456789+/".toList

/-- The base64 digit for a 6-bit value. -/
def b64Char (n : Nat) : Char := b64Alphabet.getD n 'A'

def b64IndexAux : List Char → Char → Nat → Option Nat
  | [], _, _ => none
  | a :: tl, c, i => if a == c then some i else b64IndexAux tl c (i + 1)

/-- The 6-bit value of a base64 digit, none for characters outside the alphabet. -/
def b64Index (c : Char) : Option Nat := b64IndexAux b64Alphabet c 0

/-- Function `base64::encode` from the base64 crate used by `as_base64` in src/lib.rs:
standard alphabet, trailing padding to a multiple of four characters. -/
def base64EncodeNat : List Nat → List Char
  | [] => []
  | [b1] => [b64Char (b1 / 4 % 64), b64Char (b1 % 4 * 16), '=', '=']
  | [b1, b2] =>
      [b64Char (b1 / 4 % 64), b64Char (b1 % 4 * 16 + b2 / 16),
       b64Char (b2 % 16 * 4), '=']
  | b1 :: b2 :: b3 :: rest =>
      b64Char (b1 / 4 % 64) :: b64Char (b1 % 4 * 16 + b2 / 16) ::
      b64Char (b2 % 16 * 4 + b3 / 64) :: b64Char (b3 % 64) ::
      base64EncodeNat rest

/-- Standard base64 decoding (the inverse direction the spec's round-trip
property speaks about): four characters at a time, honouring padding. -/
def base64DecodeNat : List Char → Option (List Nat)
  | [] => some []
  | c1 :: c2 :: c3 :: c4 :: rest =>
      if c3 = '=' ∧ c4 = '=' ∧ rest = [] then do
        let i1 ← b64Index c1
        let i2 ← b64Index c2
        pure [i1 * 4 + i2 / 16]
      else if c4 = '=' ∧ rest = [] then do
        let i1 ← b64Index c1
        let i2 ← b64Index c2
        let i3 ← b64Index c3
        pure [i1 * 4 + i2 / 16, i2 % 16 * 16 + i3 / 4]
      else do
        let i1 ← b64Index c1
        let i2 ← b64Index c2
        let i3 ← b64Index c3
        let i4 ← b64Index c4
        let tail ← base64DecodeNat rest
        pure ((i1 * 4 + i2 / 16) :: (i2 % 16 * 16 + i3 / 4) :: (i3 % 4 * 64 + i4) :: tail)
  | _ => none

/-- Function `base64::encode` producing a `String`. -/
def base64Encode (bytes : List Nat) : String := String.mk (base64EncodeNat bytes)

/-- UTF-8 encoding of a single code point (Rust `str::as_bytes` semantics). -/
def utf8EncodeCharNat (n : Nat) : List Nat :=
  if n < 128 then [n]
  else if n < 2048 then [192 + n / 64, 128 + n % 64]
  else if n < 65536 then [224 + n / 4096, 128 + n / 64 % 64, 128 + n % 64]
  else [240 + n / 262144, 128 + n / 4096 % 64, 128 + n / 64 % 64, 128 + n % 64]

/-- Expression `data.as_bytes().to_vec()` from src/lib.rs: the UTF-8 bytes of a string. -/
def utf8Bytes (s : String) : List Nat :=
  s.data.flatMap fun c => utf8EncodeCharNat c.toNat

/-- Enum `AppCenterLog` from src/lib.rs: the two log-entry kinds. -/
inductive AppCenterLog where
  | managedError (id : Nat) (user_id : Option String) (app_launch_timestamp : Nat)
      (timestamp : Nat) (fatal : Bool) (process_id : Nat) (process_name : String)
      (device : Device) (exception : AppCenterException)
  | errorAttachment (id : Nat) (error_id : Nat) (device : Device)
      (content_type : String) (data : List Nat) (file_name : Option String)
deriving Repr, DecidableEq

/-- serde serialization of `AppCenterLog`: internally tagged
(`#[serde(tag = "type")]`, camelCase variant and field names). `user_id`
has no `skip_serializing_if` attribute, so an absent user id serializes as
`null`; `file_name` does carry it, so an absent file name is omitted. -/
def AppCenterLog.toJson : AppCenterLog → Json
  | .managedError id user_id app_launch_timestamp timestamp fatal process_id
      process_name device exception =>
      .obj [("type", .str "managedError"), ("id", .str (toString id)),
            ("userId", match user_id with
              | none => Json.null
              | some u => .str u),
            ("appLaunchTimestamp", .str (toString app_launch_timestamp)),
            ("timestamp", .str (toString timestamp)),
            ("fatal", .bool fatal), ("processId", .num process_id),
            ("processName", .str process_name), ("device", device.toJson),
            ("exception", exception.toJson)]
  | .errorAttachment id error_id device content_type data file_name =>
      .obj ([("type", .str "errorAttachment"), ("id", .str (toString id)),
             ("errorId", .str (toString error_id)), ("device", device.toJson),
             ("contentType", .str content_type),
             ("data", .str (base64Encode data))] ++
            optField "fileName" (file_name.map .str))

/-- Structure `AppCenterLogs` from src/lib.rs: the crash report, a vector of entries. -/
structure AppCenterLogs where
  logs : List AppCenterLog
deriving Repr, DecidableEq

/-- serde serialization of `AppCenterLogs`: one `logs` array. -/
def AppCenterLogs.toJson (l : AppCenterLogs) : Json :=
  .obj [("logs", .arr (l.logs.map AppCenterLog.toJson))]

/-- Method `AppCenterLogs::add_attachement_inner` from src/lib.rs: reads
`self.logs[0]`, takes its device and id, and pushes an `ErrorAttachment`.
The source panics when `logs[0]` is not a `ManagedError` (its
`unreachable` arm; an empty vector would be an index panic) — both are
modelled as `none`. The fresh attachment id (`uuid::Uuid::new_v4()`) is
passed in as `fresh_id`. -/
def AppCenterLogs.add_attachement_inner (self : AppCenterLogs) (data : List Nat)
    (file_name : Option String) (content_type : String) (fresh_id : Nat) :
    Option AppCenterLogs :=
  match self.logs with
  | .managedError id _ _ _ _ _ _ device _ :: _ =>
      some { logs := self.logs ++
        [.errorAttachment fresh_id id device content_type data file_name] }
  | _ => none

/-- Method `AppCenterLogs::add_binary_attachement` from src/lib.rs. -/
def AppCenterLogs.add_binary_attachement (self : AppCenterLogs) (data : List Nat)
    (file_name : Option String) (fresh_id : Nat) : Option AppCenterLogs :=
  self.add_attachement_inner data file_name "application/octet_stream" fresh_id

/-- Method `AppCenterLogs::add_text_attachement` from src/lib.rs: attaches the
UTF-8 bytes of the string (`data.as_bytes().to_vec()`). -/
def AppCenterLogs.add_text_attachement (self : AppCenterLogs) (data : String)
    (file_name : Option String) (fresh_id : Nat) : Option AppCenterLogs :=
  self.add_attachement_inner (utf8Bytes data) file_name "text/plain" fresh_id

/-- Structure `AppCenterInner` from src/lib.rs: configuration plus the two
mutex-protected mutable fields, represented by their current contents.
The `Fn(&mut AppCenterLogs)` report callback is modelled as a function
from the report to the mutated report. -/
structure AppCenterInner where
  app_secret : String
  app_version : String
  app_build : Option String
  app_launch_timestamp : Nat
  user_id : Option String
  on_report : Option (AppCenterLogs → AppCenterLogs)

/-- Nondeterministic inputs consumed by one run of the installed panic hook. -/
structure PanicWorld where
  report_id : Nat
  now : Nat
  pid : Nat
  device_env : DeviceEnv
  bt : List BacktraceFrame
  client_ok : Bool
  send_result : Except String String

/-- Method `AppCenterInner::new_payload` from src/lib.rs: a report holding exactly
one `ManagedError` built from a fresh id, the current user id, the fixed
launch timestamp, the current time, `fatal: true`, `Utils::get_pid()`, an
empty process name, the current device, and the exception built from the
panic info. -/
def AppCenterInner.new_payload (self : AppCenterInner) (panic_info : PanicInfo)
    (w : PanicWorld) : AppCenterLogs :=
  { logs := [.managedError w.report_id self.user_id self.app_launch_timestamp
      w.now true w.pid ""
      (Device.current_device w.device_env self.app_version self.app_build)
      (AppCenterException.new panic_info w.bt)] }

/-- A `log::info` or `log::error` call made by the hook. -/
inductive LogEvent where
  | info (msg : String)
  | error (msg : String)
deriving Repr, DecidableEq

/-- Observable outcome of one run of the installed panic hook: the agent
fields it leaves behind, whether the report callback ran, the body handed
to the HTTP transport (if any), the log calls made, the invocations of the
saved original hook, and whether the hook itself panicked. -/
structure HookResult where
  state' : AppCenterInner
  callback_invoked : Bool
  sent_body : Option Json
  logged : List LogEvent
  old_hook_calls : List PanicInfo
  panicked : Option String

/-- The report the hook hands to serialization: `new_payload` result after
the taken report callback (if any) has mutated it. -/
def hookPayload (app_center : AppCenterInner) (panic_info : PanicInfo)
    (w : PanicWorld) : AppCenterLogs :=
  match app_center.on_report with
  | some callback => callback (app_center.new_payload panic_info w)
  | none => app_center.new_payload panic_info w

/-- The closure installed by `AppCenterInner::set_panic_hook` in src/lib.rs,
run on one panic. `ser` stands for the external `serde_json::to_vec` call,
whose `Result` the source unwraps: an `error` result makes the hook itself
panic, short-circuiting everything after it. `w.client_ok` models whether
`reqwest::blocking::Client::builder().build()` returned `Ok`, and
`w.send_result` the outcome of `send()`. The callback is removed from the
agent by `take()` before being run. The original hook is invoked at the
end with the unchanged panic info. -/
def panic_hook_body (ser : AppCenterLogs → Except String Json)
    (app_center : AppCenterInner) (panic_info : PanicInfo) (w : PanicWorld) :
    HookResult :=
  let report_callback := app_center.on_report
  let st' : AppCenterInner := { app_center with on_report := none }
  let payload := hookPayload app_center panic_info w
  if w.client_ok then
    match ser payload with
    | .error e =>
        { state' := st', callback_invoked := report_callback.isSome,
          sent_body := none, logged := [], old_hook_calls := [],
          panicked := some e }
    | .ok body =>
        match w.send_result with
        | .ok resp =>
            { state' := st', callback_invoked := report_callback.isSome,
              sent_body := some body,
              logged := [.info ("Crash report sent: " ++ resp)],
              old_hook_calls := [panic_info], panicked := none }
        | .error err =>
            { state' := st', callback_invoked := report_callback.isSome,
              sent_body := some body,
              logged := [.error ("Failed to send crash report " ++ err)],
              old_hook_calls := [panic_info], panicked := none }
  else
    { state' := st', callback_invoked := report_callback.isSome,
      sent_body := none, logged := [], old_hook_calls := [panic_info],
      panicked := none }

/-- Call `serde_json::to_vec` applied to an `AppCenterLogs` value. On this schema
(structs of strings, numbers, booleans, options and vectors, plus a custom
serializer that emits a base64 string) serde_json serialization cannot
fail, so the call is the total serialization into the JSON tree. -/
def serde_json_to_vec (l : AppCenterLogs) : Except String Json :=
  .ok l.toJson

/-- Whether a log entry is an `ErrorAttachment` referencing the given
failure-record id. -/
def AppCenterLog.referencesId (id : Nat) : AppCenterLog → Bool
  | .errorAttachment _ error_id _ _ _ _ => error_id == id
  | _ => false

/-- The report invariant the spec states: the first entry is a
`ManagedError` and every subsequent entry is an `ErrorAttachment` whose
`error_id` equals the first entry's id. -/
def AppCenterLogs.wellFormed (l : AppCenterLogs) : Bool :=
  match l.logs with
  | .managedError id _ _ _ _ _ _ _ _ :: rest => rest.all (AppCenterLog.referencesId id)
  | _ => false

/-- Whether the first entry of a report is a `ManagedError`. -/
def AppCenterLogs.headIsManagedError (l : AppCenterLogs) : Bool :=
  match l.logs with
  | .managedError _ _ _ _ _ _ _ _ _ :: _ => true
  | _ => false

/-- One call of the public attachment API
(`add_binary_attachement` or `add_text_attachement`). -/
inductive AttachOp where
  | binary (data : List Nat) (file_name : Option String) (fresh_id : Nat)
  | text (data : String) (file_name : Option String) (fresh_id : Nat)
deriving Repr, DecidableEq

def AppCenterLogs.applyOp (l : AppCenterLogs) : AttachOp → Option AppCenterLogs
  | .binary data file_name fresh_id => l.add_binary_attachement data file_name fresh_id
  | .text data file_name fresh_id => l.add_text_attachement data file_name fresh_id

/-- A sequence of public attachment calls, applied left to right. -/
def AppCenterLogs.applyOps : AppCenterLogs → List AttachOp → Option AppCenterLogs
  | l, [] => some l
  | l, op :: ops => (l.applyOp op).bind fun l2 => l2.applyOps ops

/-- The value of a key in a JSON object (none on non-objects and missing keys). -/
def Json.lookup (k : String) : Json → Option Json
  | .obj fs => (fs.find? (fun p => p.1 == k)).map Prod.snd
  | _ => none

/-- A concrete agent (no user id, no callback), for concrete evaluations. -/
def cInner : AppCenterInner :=
  { app_secret := "secret", app_version := "1.0.0", app_build := none,
    app_launch_timestamp := 100, user_id := none, on_report := none }

/-- A concrete panic: payload "boom" at example.rs:42. -/
def cPanic : PanicInfo :=
  { payload_str := some "boom",
    location := some { file := "example.rs", line := 42 } }

/-- A concrete world for one hook run (client builds, send succeeds). -/
def cWorld : PanicWorld :=
  { report_id := 1, now := 200, pid := 7,
    device_env := { model := "Computer", os_name := "Linux",
                    os_version := "Linux", locale := "en_US" },
    bt := [], client_ok := true, send_result := .ok "accepted" }

/-- The do-nothing report callback a host may install. -/
def cCallback : AppCenterLogs → AppCenterLogs := fun l => l

/-- A concrete agent with an installed report callback. -/
def cInnerCb : AppCenterInner := { cInner with on_report := some cCallback }

/-- An external serializer that fails, to exercise the unwrap path. -/
def serFail : AppCenterLogs → Except String Json :=
  fun _ => .error "serialization failed"

theorem b64Index_b64Char : ∀ n : Nat, n < 64 → b64Index (b64Char n) = some n := by
  decide

theorem b64Char_ne_pad : ∀ n : Nat, b64Char n ≠ '=' := by
  intro n
  by_cases h : n < 64
  · revert h
    revert n
    decide
  · have hlen : b64Alphabet.length ≤ n := by
      rw [show b64Alphabet.length = 64 from by decide]
      omega
    have hA : b64Char n = 'A' := List.getD_eq_default _ _ hlen
    simp [hA]

/-- Standard base64 decoding inverts `base64::encode` on byte lists. -/
theorem base64_roundtrip : ∀ bs : List Nat, (∀ b ∈ bs, b < 256) →
    base64DecodeNat (base64EncodeNat bs) = some bs
  | [], _ => rfl
  | [b1], h => by
      have hb1 : b1 < 256 := h b1 (by simp)
      have e1 : b64Index (b64Char (b1 / 4 % 64)) = some (b1 / 4 % 64) :=
        b64Index_b64Char _ (by omega)
      have e2 : b64Index (b64Char (b1 % 4 * 16)) = some (b1 % 4 * 16) :=
        b64Index_b64Char _ (by omega)
      simp [base64EncodeNat, base64DecodeNat, e1, e2]
      omega
  | [b1, b2], h => by
      have hb1 : b1 < 256 := h b1 (by simp)
      have hb2 : b2 < 256 := h b2 (by simp)
      have e1 : b64Index (b64Char (b1 / 4 % 64)) = some (b1 / 4 % 64) :=
        b64Index_b64Char _ (by omega)
      have e2 : b64Index (b64Char (b1 % 4 * 16 + b2 / 16)) = some (b1 % 4 * 16 + b2 / 16) :=
        b64Index_b64Char _ (by omega)
      have e3 : b64Index (b64Char (b2 % 16 * 4)) = some (b2 % 16 * 4) :=
        b64Index_b64Char _ (by omega)
      simp [base64EncodeNat, base64DecodeNat, e1, e2, e3, b64Char_ne_pad]
      omega
  | b1 :: b2 :: b3 :: rest, h => by
      have hb1 : b1 < 256 := h b1 (by simp)
      have hb2 : b2 < 256 := h b2 (by simp)
      have hb3 : b3 < 256 := h b3 (by simp)
      have ih := base64_roundtrip rest (fun b hb => h b (by simp [hb]))
      have e1 : b64Index (b64Char (b1 / 4 % 64)) = some (b1 / 4 % 64) :=
        b64Index_b64Char _ (by omega)
      have e2 : b64Index (b64Char (b1 % 4 * 16 + b2 / 16)) = some (b1 % 4 * 16 + b2 / 16) :=
        b64Index_b64Char _ (by omega)
      have e3 : b64Index (b64Char (b2 % 16 * 4 + b3 / 64)) = some (b2 % 16 * 4 + b3 / 64) :=
        b64Index_b64Char _ (by omega)
      have e4 : b64Index (b64Char (b3 % 64)) = some (b3 % 64) :=
        b64Index_b64Char _ (by omega)
      cases rest with
      | nil =>
          simp [base64EncodeNat, base64DecodeNat, e1, e2, e3, e4, b64Char_ne_pad]
          omega
      | cons r rs =>
          simp only [base64EncodeNat, base64DecodeNat] at ih ⊢
          simp [e1, e2, e3, e4, b64Char_ne_pad, ih]
          omega

/-- UTF-8 bytes are bytes: every element of `utf8Bytes s` is below 256. -/
theorem utf8Bytes_lt_256 (s : String) : ∀ b ∈ utf8Bytes s, b < 256 := by
  intro b hb
  simp only [utf8Bytes, List.mem_flatMap] at hb
  obtain ⟨c, _, hbc⟩ := hb
  have hval : c.toNat < 1114112 := by
    have hv := c.valid
    rcases hv with h1 | h2
    · have : c.val.toNat < 55296 := h1
      simp only [Char.toNat]
      omega
    · obtain ⟨_, hlt⟩ := h2
      have : c.val.toNat < 1114112 := hlt
      simp only [Char.toNat]
      omega
  by_cases h1 : c.toNat < 128
  · simp [utf8EncodeCharNat, h1] at hbc
    omega
  · by_cases h2 : c.toNat < 2048
    · simp [utf8EncodeCharNat, h1, h2] at hbc
      rcases hbc with h | h <;> omega
    · by_cases h3 : c.toNat < 65536
      · simp [utf8EncodeCharNat, h1, h2, h3] at hbc
        rcases hbc with h | h | h <;> omega
      · simp [utf8EncodeCharNat, h1, h2, h3] at hbc
        rcases hbc with h | h | h | h <;> omega

/-- C6: for every failure event the constructed Exception has type tag
"panic" and its message is the payload text verbatim as a prefix when the
payload is a `&str` (empty prefix otherwise), with " at file:line"
appended when location info is available; in particular payload "boom" at
example.rs:42 yields "boom at example.rs:42". -/
theorem C6_exception_message (panic_info : PanicInfo) (bt : List BacktraceFrame) :
    (AppCenterException.new panic_info bt).«type» = "panic" ∧
    (AppCenterException.new panic_info bt).message =
      panic_info.payload_str.getD "" ++
        (match panic_info.location with
          | some location => " at " ++ location.file ++ ":" ++ toString location.line
          | none => "") ∧
    (AppCenterException.new cPanic bt).message = "boom at example.rs:42" := by
  refine ⟨rfl, ?_, by simp [AppCenterException.new, cPanic]; rfl⟩
  rcases panic_info with ⟨payload_str, location⟩
  rcases payload_str with _ | p <;> rcases location with _ | loc <;>
    simp [AppCenterException.new, String.append_assoc]

/-- C9: every report built by new_payload consists of a single
FailureRecord whose fatality flag is true, whose process id is the current
process id (`Utils::get_pid()`), and whose process name is the empty
string. -/
theorem C9_failure_record_fields (self : AppCenterInner) (panic_info : PanicInfo)
    (w : PanicWorld) :
    ∃ id uid alts ts device exc,
      (self.new_payload panic_info w).logs =
        [AppCenterLog.managedError id uid alts ts true w.pid "" device exc] :=
  ⟨w.report_id, self.user_id, self.app_launch_timestamp, w.now, _, _, rfl⟩

/-- C10: every frame produced by collect_backtrace has an absent
memory-address field, and no serialized frame carries an "address" key. -/
theorem C10_address_never_populated (bt : List BacktraceFrame) :
    (ExceptionFrame.collect_backtrace bt).all
      (fun f => f.address.isNone && !(f.toJson.hasKey "address")) = true := by
  simp only [List.all_eq_true, ExceptionFrame.collect_backtrace, List.mem_flatMap,
    List.mem_map]
  rintro f ⟨frame, _, symbol, _, rfl⟩
  rcases symbol with ⟨name, lineno, filename⟩
  rcases name with _ | n <;> rcases lineno with _ | ln <;> rcases filename with _ | fn <;>
    simp [ExceptionFrame.toJson, optField, Json.hasKey]

theorem add_attachement_inner_shape (hd_id : Nat) (uid : Option String)
    (alts ts : Nat) (ft : Bool) (pid : Nat) (pn : String) (dv : Device)
    (ex : AppCenterException) (tl : List AppCenterLog) (data : List Nat)
    (fn : Option String) (ct : String) (fid : Nat) :
    AppCenterLogs.add_attachement_inner
        ⟨.managedError hd_id uid alts ts ft pid pn dv ex :: tl⟩ data fn ct fid =
      some ⟨.managedError hd_id uid alts ts ft pid pn dv ex ::
        (tl ++ [.errorAttachment fid hd_id dv ct data fn])⟩ := by
  simp [AppCenterLogs.add_attachement_inner]

theorem applyOps_shape : ∀ (ops : List AttachOp) (hd_id : Nat)
    (uid : Option String) (alts ts : Nat) (ft : Bool) (pid : Nat) (pn : String)
    (dv : Device) (ex : AppCenterException) (tl : List AppCenterLog),
    tl.all (AppCenterLog.referencesId hd_id) = true →
    ∃ tl2, AppCenterLogs.applyOps
        ⟨.managedError hd_id uid alts ts ft pid pn dv ex :: tl⟩ ops =
      some ⟨.managedError hd_id uid alts ts ft pid pn dv ex :: tl2⟩ ∧
      tl2.all (AppCenterLog.referencesId hd_id) = true
  | [], hd_id, uid, alts, ts, ft, pid, pn, dv, ex, tl, htl =>
      ⟨tl, rfl, htl⟩
  | op :: ops, hd_id, uid, alts, ts, ft, pid, pn, dv, ex, tl, htl => by
      have step : ∀ data fn ct fid, ∃ tl1,
          AppCenterLogs.add_attachement_inner
            ⟨.managedError hd_id uid alts ts ft pid pn dv ex :: tl⟩ data fn ct fid =
            some ⟨.managedError hd_id uid alts ts ft pid pn dv ex :: tl1⟩ ∧
          tl1.all (AppCenterLog.referencesId hd_id) = true := by
        intro data fn ct fid
        refine ⟨tl ++ [.errorAttachment fid hd_id dv ct data fn],
          add_attachement_inner_shape _ _ _ _ _ _ _ _ _ _ _ _ _ _, ?_⟩
        simp [List.all_append, htl, AppCenterLog.referencesId]
      cases op with
      | binary data fn fid =>
          obtain ⟨tl1, heq, hall⟩ := step data fn "application/octet_stream" fid
          obtain ⟨tl2, heq2, hall2⟩ :=
            applyOps_shape ops hd_id uid alts ts ft pid pn dv ex tl1 hall
          exact ⟨tl2, by
            simp [AppCenterLogs.applyOps, AppCenterLogs.applyOp,
              AppCenterLogs.add_binary_attachement, heq, heq2], hall2⟩
      | text data fn fid =>
          obtain ⟨tl1, heq, hall⟩ := step (utf8Bytes data) fn "text/plain" fid
          obtain ⟨tl2, heq2, hall2⟩ :=
            applyOps_shape ops hd_id uid alts ts ft pid pn dv ex tl1 hall
          exact ⟨tl2, by
            simp [AppCenterLogs.applyOps, AppCenterLogs.applyOp,
              AppCenterLogs.add_text_attachement, heq, heq2], hall2⟩

/-- C2: every report reachable through the public API — built by
new_payload and then mutated by any sequence of binary/text attachment
calls — has a ManagedError as its first entry, and every subsequent entry
is an ErrorAttachment whose error_id equals that first entry's id. -/
theorem C2_report_invariant (self : AppCenterInner) (panic_info : PanicInfo)
    (w : PanicWorld) (ops : List AttachOp) :
    ∃ r, (self.new_payload panic_info w).applyOps ops = some r ∧
      r.wellFormed = true := by
  obtain ⟨tl2, heq, hall⟩ := applyOps_shape ops w.report_id self.user_id
    self.app_launch_timestamp w.now true w.pid ""
    (Device.current_device w.device_env self.app_version self.app_build)
    (AppCenterException.new panic_info w.bt) [] rfl
  exact ⟨_, heq, by simp [AppCenterLogs.wellFormed, hall]⟩

theorem hasNull_null_eq : Json.hasNull .null = true := by simp [Json.hasNull]

theorem hasNull_str_eq (s : String) : Json.hasNull (.str s) = false := by
  simp [Json.hasNull]

theorem hasNull_num_eq (n : Nat) : Json.hasNull (.num n) = false := by
  simp [Json.hasNull]

theorem hasNull_bool_eq (b : Bool) : Json.hasNull (.bool b) = false := by
  simp [Json.hasNull]

theorem hasNull_arr_eq (xs : List Json) :
    Json.hasNull (.arr xs) = Json.hasNullList xs := by
  simp [Json.hasNull]

theorem hasNull_obj_eq (fs : List (String × Json)) :
    Json.hasNull (.obj fs) = Json.hasNullObj fs := by
  simp [Json.hasNull]

theorem hasNullList_nil_eq : Json.hasNullList [] = false := by
  simp [Json.hasNullList]

theorem hasNullList_cons_eq (j : Json) (tl : List Json) :
    Json.hasNullList (j :: tl) = (j.hasNull || Json.hasNullList tl) := by
  simp [Json.hasNullList]

theorem hasNullObj_nil_eq : Json.hasNullObj [] = false := by
  simp [Json.hasNullObj]

theorem hasNullObj_cons_eq (k : String) (v : Json) (tl : List (String × Json)) :
    Json.hasNullObj ((k, v) :: tl) = (v.hasNull || Json.hasNullObj tl) := by
  simp [Json.hasNullObj]

theorem hasNullObj_append (a b : List (String × Json)) :
    Json.hasNullObj (a ++ b) = (Json.hasNullObj a || Json.hasNullObj b) := by
  induction a with
  | nil => simp [Json.hasNullObj]
  | cons hd tl ih =>
      obtain ⟨k, v⟩ := hd
      simp [Json.hasNullObj, ih, Bool.or_assoc]

theorem hasNull_device (d : Device) : d.toJson.hasNull = false := by
  simp [Device.toJson, Json.hasNull, Json.hasNullObj]

theorem hasNull_optField_str (key : String) (o : Option String) :
    Json.hasNullObj (optField key (o.map .str)) = false := by
  cases o <;> simp [optField, Json.hasNullObj, Json.hasNull]

theorem hasNull_optField_num (key : String) (o : Option Nat) :
    Json.hasNullObj (optField key (o.map .num)) = false := by
  cases o <;> simp [optField, Json.hasNullObj, Json.hasNull]

theorem hasNull_frame (f : ExceptionFrame) : f.toJson.hasNull = false := by
  simp [ExceptionFrame.toJson, Json.hasNull, hasNullObj_append,
    hasNull_optField_str, hasNull_optField_num]

theorem hasNull_frameList (fs : List ExceptionFrame) :
    Json.hasNullList (fs.map ExceptionFrame.toJson) = false := by
  induction fs with
  | nil => simp [Json.hasNullList]
  | cons hd tl ih => simp [Json.hasNullList, hasNull_frame, ih]

theorem hasNull_exception (e : AppCenterException) : e.toJson.hasNull = false := by
  simp [AppCenterException.toJson, Json.hasNull, Json.hasNullObj,
    hasNull_frameList]

theorem hasNull_managedError (id : Nat) (uid : Option String) (alts ts : Nat)
    (ft : Bool) (pid : Nat) (pn : String) (dv : Device)
    (ex : AppCenterException) :
    (AppCenterLog.managedError id uid alts ts ft pid pn dv ex).toJson.hasNull =
      uid.isNone := by
  cases uid <;>
    simp [AppCenterLog.toJson, hasNull_obj_eq, hasNullObj_cons_eq,
      hasNullObj_nil_eq, hasNull_null_eq, hasNull_str_eq, hasNull_num_eq,
      hasNull_bool_eq, hasNull_device, hasNull_exception]

theorem hasNull_errorAttachment (id eid : Nat) (dv : Device) (ct : String)
    (data : List Nat) (fn : Option String) :
    (AppCenterLog.errorAttachment id eid dv ct data fn).toJson.hasNull = false := by
  cases fn <;>
    simp [AppCenterLog.toJson, hasNull_obj_eq, hasNullObj_append,
      hasNullObj_cons_eq, hasNullObj_nil_eq, hasNull_str_eq, hasNull_device,
      optField]

theorem hasNull_attachList (id : Nat) (tl : List AppCenterLog)
    (htl : tl.all (AppCenterLog.referencesId id) = true) :
    Json.hasNullList (tl.map AppCenterLog.toJson) = false := by
  induction tl with
  | nil => simp [Json.hasNullList]
  | cons hd tl2 ih =>
      simp only [List.all_cons, Bool.and_eq_true] at htl
      obtain ⟨hhd, htl2⟩ := htl
      cases hd with
      | managedError a b c d e f g h i =>
          simp [AppCenterLog.referencesId] at hhd
      | errorAttachment a b c d e f =>
          simp [hasNullList_cons_eq, hasNull_errorAttachment, ih htl2]

/-- C3 counterexample: a report reachable through the public API (built by
new_payload for an agent with no user id) whose serialized JSON does
contain a null value — `userId` has no skip attribute, so an absent user
id serializes as null. -/
theorem C3_counterexample :
    ((cInner.new_payload cPanic cWorld).toJson).hasNull = true := by
  decide

/-- C3 amended: the serialized report contains a null exactly when the
user id is absent (the `userId` field, which serde emits as null); every
other optional field — fileName on attachments and the four optional
Frame fields — is omitted entirely when absent, so no other null ever
appears. -/
theorem C3_amended_null_only_userId (self : AppCenterInner)
    (panic_info : PanicInfo) (w : PanicWorld) (ops : List AttachOp)
    (r : AppCenterLogs)
    (h : (self.new_payload panic_info w).applyOps ops = some r) :
    r.toJson.hasNull = self.user_id.isNone := by
  obtain ⟨tl2, heq, hall⟩ := applyOps_shape ops w.report_id self.user_id
    self.app_launch_timestamp w.now true w.pid ""
    (Device.current_device w.device_env self.app_version self.app_build)
    (AppCenterException.new panic_info w.bt) [] rfl
  have hr : r = ⟨.managedError w.report_id self.user_id self.app_launch_timestamp
      w.now true w.pid ""
      (Device.current_device w.device_env self.app_version self.app_build)
      (AppCenterException.new panic_info w.bt) :: tl2⟩ := by
    have := heq.symm.trans h
    exact (Option.some_inj.mp this).symm
  subst hr
  simp [AppCenterLogs.toJson, hasNull_obj_eq, hasNullObj_cons_eq,
    hasNullObj_nil_eq, hasNull_arr_eq, hasNullList_cons_eq,
    hasNull_managedError, hasNull_attachList _ _ hall]

/-- Witness for the amended C3 at a concrete input: no attachments, absent
user id, null present. -/
theorem C3_amended_witness :
    ((cInner.new_payload cPanic cWorld).applyOps [] =
        some (cInner.new_payload cPanic cWorld)) ∧
    (cInner.new_payload cPanic cWorld).toJson.hasNull = cInner.user_id.isNone :=
  ⟨rfl, C3_amended_null_only_userId cInner cPanic cWorld []
    (cInner.new_payload cPanic cWorld) rfl⟩

/-- C7: adding a binary attachment with bytes B and no file name appends
an ErrorAttachment with contentType "application/octet_stream" and data B;
its serialization carries data base64(B) and no fileName key. -/
theorem C7_binary_attachment (l : AppCenterLogs) (B : List Nat) (fresh_id : Nat)
    (h : l.headIsManagedError = true) :
    ∃ att r, l.add_binary_attachement B none fresh_id = some r ∧
      r.logs = l.logs ++ [att] ∧
      (∃ eid dv, att =
        .errorAttachment fresh_id eid dv "application/octet_stream" B none) ∧
      att.toJson.lookup "contentType" = some (.str "application/octet_stream") ∧
      att.toJson.lookup "data" = some (.str (base64Encode B)) ∧
      att.toJson.hasKey "fileName" = false := by
  rcases l with ⟨logs⟩
  match logs, h with
  | .managedError id uid alts ts ft pid pn dv ex :: tl, _ =>
    refine ⟨.errorAttachment fresh_id id dv "application/octet_stream" B none,
      _, ?_, rfl, ⟨id, dv, rfl⟩, ?_, ?_, ?_⟩
    · simp [AppCenterLogs.add_binary_attachement, AppCenterLogs.add_attachement_inner]
    · simp [AppCenterLog.toJson, Json.lookup, optField, List.find?]
    · simp [AppCenterLog.toJson, Json.lookup, optField, List.find?]
    · simp [AppCenterLog.toJson, Json.hasKey, optField]

/-- Witness for C7 at a concrete input: the report built by new_payload,
bytes [1, 2, 3], fresh id 9. -/
theorem C7_binary_attachment_witness :
    (cInner.new_payload cPanic cWorld).headIsManagedError = true ∧
    (∃ att r, (cInner.new_payload cPanic cWorld).add_binary_attachement
        [1, 2, 3] none 9 = some r ∧
      r.logs = (cInner.new_payload cPanic cWorld).logs ++ [att] ∧
      (∃ eid dv, att =
        .errorAttachment 9 eid dv "application/octet_stream" [1, 2, 3] none) ∧
      att.toJson.lookup "contentType" = some (.str "application/octet_stream") ∧
      att.toJson.lookup "data" = some (.str (base64Encode [1, 2, 3])) ∧
      att.toJson.hasKey "fileName" = false) :=
  ⟨rfl, C7_binary_attachment (cInner.new_payload cPanic cWorld) [1, 2, 3] 9 rfl⟩

/-- C8: adding a text attachment with string s appends an ErrorAttachment
with contentType "text/plain" whose data is the UTF-8 encoding of s; the
serialized data field holds its base64 encoding and base64-decoding that
encoding gives back exactly the UTF-8 bytes of s. -/
theorem C8_text_attachment (l : AppCenterLogs) (s : String) (fn : Option String)
    (fresh_id : Nat) (h : l.headIsManagedError = true) :
    ∃ att r, l.add_text_attachement s fn fresh_id = some r ∧
      r.logs = l.logs ++ [att] ∧
      (∃ eid dv, att =
        .errorAttachment fresh_id eid dv "text/plain" (utf8Bytes s) fn) ∧
      att.toJson.lookup "contentType" = some (.str "text/plain") ∧
      att.toJson.lookup "data" = some (.str (base64Encode (utf8Bytes s))) ∧
      base64DecodeNat (base64EncodeNat (utf8Bytes s)) = some (utf8Bytes s) := by
  rcases l with ⟨logs⟩
  match logs, h with
  | .managedError id uid alts ts ft pid pn dv ex :: tl, _ =>
    refine ⟨.errorAttachment fresh_id id dv "text/plain" (utf8Bytes s) fn,
      _, ?_, rfl, ⟨id, dv, rfl⟩, ?_, ?_,
      base64_roundtrip (utf8Bytes s) (utf8Bytes_lt_256 s)⟩
    · simp [AppCenterLogs.add_text_attachement, AppCenterLogs.add_attachement_inner]
    · cases fn <;> simp [AppCenterLog.toJson, Json.lookup, optField, List.find?]
    · cases fn <;> simp [AppCenterLog.toJson, Json.lookup, optField, List.find?]

/-- Witness for C8 at a concrete input: the string "hello" with no file
name, fresh id 9. -/
theorem C8_text_attachment_witness :
    (cInner.new_payload cPanic cWorld).headIsManagedError = true ∧
    (∃ att r, (cInner.new_payload cPanic cWorld).add_text_attachement
        "hello" none 9 = some r ∧
      r.logs = (cInner.new_payload cPanic cWorld).logs ++ [att] ∧
      (∃ eid dv, att =
        .errorAttachment 9 eid dv "text/plain" (utf8Bytes "hello") none) ∧
      att.toJson.lookup "contentType" = some (.str "text/plain") ∧
      att.toJson.lookup "data" = some (.str (base64Encode (utf8Bytes "hello"))) ∧
      base64DecodeNat (base64EncodeNat (utf8Bytes "hello")) =
        some (utf8Bytes "hello")) :=
  ⟨rfl, C8_text_attachment (cInner.new_payload cPanic cWorld) "hello" none 9 rfl⟩

theorem panic_hook_state (ser : AppCenterLogs → Except String Json)
    (app_center : AppCenterInner) (panic_info : PanicInfo) (w : PanicWorld) :
    (panic_hook_body ser app_center panic_info w).state' =
      { app_center with on_report := none } := by
  unfold panic_hook_body
  cases hser : ser (hookPayload app_center panic_info w) <;>
    cases hc : w.client_ok <;> cases hsr : w.send_result <;> simp [hser, hc, hsr]

theorem panic_hook_callback_invoked (ser : AppCenterLogs → Except String Json)
    (app_center : AppCenterInner) (panic_info : PanicInfo) (w : PanicWorld) :
    (panic_hook_body ser app_center panic_info w).callback_invoked =
      app_center.on_report.isSome := by
  unfold panic_hook_body
  cases hser : ser (hookPayload app_center panic_info w) <;>
    cases hc : w.client_ok <;> cases hsr : w.send_result <;> simp [hser, hc, hsr]

/-- C1: for every failure event, under the real serializer (which cannot
fail on this schema), the previously installed panic hook is invoked
exactly once with the original panic info — whether the HTTP client fails
to build, the delivery succeeds, or the delivery fails. -/
theorem C1_fallback_invoked_exactly_once (app_center : AppCenterInner)
    (panic_info : PanicInfo) (w : PanicWorld) :
    (panic_hook_body serde_json_to_vec app_center panic_info w).old_hook_calls =
      [panic_info] := by
  unfold panic_hook_body serde_json_to_vec
  cases hc : w.client_ok <;> cases hsr : w.send_result <;> simp [hc, hsr]

/-- C4 counterexample: with a callback installed, the first hook run does
invoke it but leaves the agent with no stored callback (the source calls
`take()` on the mutex contents), so a second failure event does not invoke
it — contradicting the claim that the stored callback remains installed
and is reused. -/
theorem C4_counterexample :
    (panic_hook_body serde_json_to_vec cInnerCb cPanic cWorld).callback_invoked
        = true ∧
    (panic_hook_body serde_json_to_vec cInnerCb cPanic
        cWorld).state'.on_report.isNone = true ∧
    (panic_hook_body serde_json_to_vec
        (panic_hook_body serde_json_to_vec cInnerCb cPanic cWorld).state'
        cPanic cWorld).callback_invoked = false :=
  ⟨rfl, rfl, rfl⟩

/-- C4 amended: if a callback is installed, the failure handler invokes it
once but takes (consumes) it: afterwards the stored callback is none and a
second failure event does not invoke any callback until the host installs
a fresh one. -/
theorem C4_amended_callback_taken (app_center : AppCenterInner)
    (cb : AppCenterLogs → AppCenterLogs) (panic_info : PanicInfo)
    (w : PanicWorld) (panic_info2 : PanicInfo) (w2 : PanicWorld)
    (h : app_center.on_report = some cb) :
    (panic_hook_body serde_json_to_vec app_center panic_info w).callback_invoked
        = true ∧
    (panic_hook_body serde_json_to_vec app_center panic_info
        w).state'.on_report = none ∧
    (panic_hook_body serde_json_to_vec
        (panic_hook_body serde_json_to_vec app_center panic_info w).state'
        panic_info2 w2).callback_invoked = false := by
  refine ⟨?_, ?_, ?_⟩
  · rw [panic_hook_callback_invoked, h]
    rfl
  · rw [panic_hook_state]
  · rw [panic_hook_callback_invoked, panic_hook_state]
    rfl

/-- Witness for the amended C4 at a concrete input. -/
theorem C4_amended_witness :
    cInnerCb.on_report = some cCallback ∧
    ((panic_hook_body serde_json_to_vec cInnerCb cPanic cWorld).callback_invoked
        = true ∧
    (panic_hook_body serde_json_to_vec cInnerCb cPanic
        cWorld).state'.on_report = none ∧
    (panic_hook_body serde_json_to_vec
        (panic_hook_body serde_json_to_vec cInnerCb cPanic cWorld).state'
        cPanic cWorld).callback_invoked = false) :=
  ⟨rfl, C4_amended_callback_taken cInnerCb cCallback cPanic cWorld cPanic cWorld rfl⟩

/-- C5 counterexample: with a failing serializer, the hook neither logs the
error nor runs the fallback handler — it panics on the unwrap, so the
original hook receives no call, contradicting the claim. -/
theorem C5_counterexample :
    (panic_hook_body serFail cInner cPanic cWorld).old_hook_calls = [] ∧
    (panic_hook_body serFail cInner cPanic cWorld).logged = [] ∧
    (panic_hook_body serFail cInner cPanic cWorld).panicked =
      some "serialization failed" :=
  ⟨rfl, rfl, rfl⟩

/-- C5 amended: if serialization of the report fails, the handler panics on
the `unwrap`: the error is not logged, delivery is skipped, and the
fallback handler is not invoked (the source assumes serialization cannot
fail). -/
theorem C5_amended_unwrap_panics (ser : AppCenterLogs → Except String Json)
    (app_center : AppCenterInner) (panic_info : PanicInfo) (w : PanicWorld)
    (e : String) (hc : w.client_ok = true)
    (hser : ser (hookPayload app_center panic_info w) = .error e) :
    (panic_hook_body ser app_center panic_info w).panicked = some e ∧
    (panic_hook_body ser app_center panic_info w).old_hook_calls = [] ∧
    (panic_hook_body ser app_center panic_info w).logged = [] ∧
    (panic_hook_body ser app_center panic_info w).sent_body = none := by
  unfold panic_hook_body
  simp [hc, hser]

/-- Witness for the amended C5 at a concrete input. -/
theorem C5_amended_witness :
    cWorld.client_ok = true ∧
    serFail (hookPayload cInner cPanic cWorld) = .error "serialization failed" ∧
    ((panic_hook_body serFail cInner cPanic cWorld).panicked =
        some "serialization failed" ∧
      (panic_hook_body serFail cInner cPanic cWorld).old_hook_calls = [] ∧
      (panic_hook_body serFail cInner cPanic cWorld).logged = [] ∧
      (panic_hook_body serFail cInner cPanic cWorld).sent_body = none) :=
  ⟨rfl, rfl, C5_amended_unwrap_panics serFail cInner cPanic cWorld
    "serialization failed" rfl rfl⟩
